import Mathlib

/-!
Shallow embedding of
`Unreal/CarlaUE4/Plugins/Carla/Source/Carla/Sensor/SceneCaptureCamera.cpp`
(the CARLA scene-capture camera sensor).

Modelling conventions:
* `uint32` values are `Nat`, reduced `% 2^32` exactly at the points where the
  C++ performs an integral conversion (argument passing into a `uint32`
  parameter); fields that are only ever assigned from `uint32` sources carry
  the invariant implicitly.
* `float` values are carried as their IEEE-754 single-precision bit patterns
  (`Nat`).  The source never performs floating-point arithmetic on them: FOV,
  gamma and the auto-exposure parameters are stored and forwarded verbatim,
  and the wire header stores the FOV float bit-reinterpreted into a 32-bit
  slot, so the bit pattern is the faithful representation.
* Unreal `UObject*` pointers are `Option`; a function that dereferences a
  possibly-null pointer without a `check` returns `none` on the null case
  (the crash), while `check(p != nullptr)` is modelled as an `Except` error
  (the loud assertion failure).
* `FEngineShowFlags` is a boolean valuation of the show flags touched by this
  file; engine default is "on" (`true`).
-/

namespace Carla

/-- `EPostProcessEffect` (declared in `PostProcessEffect.h`, used throughout
`SceneCaptureCamera.cpp`): the closed set of capture variants. -/
inductive EPostProcessEffect where
  | None
  | SceneFinal
  | Depth
  | SemanticSegmentation
  deriving DecidableEq, Repr

/-- Modelled from the spec: `PostProcessEffect::ToUInt` lives in a header
that is not among the sources; the spec fixes the stable numeric codes
`SceneFinal=0, Depth=1, SemanticSegmentation=2, None=3` for the wire
header's third field. -/
def PostProcessEffectToUInt : EPostProcessEffect → Nat
  | EPostProcessEffect.SceneFinal => 0
  | EPostProcessEffect.Depth => 1
  | EPostProcessEffect.SemanticSegmentation => 2
  | EPostProcessEffect.None => 3

/-- The engine show flags that `RemoveShowFlags` switches off (exactly the
uncommented `ShowFlags.Set…(false)` calls of the source, in source order). -/
inductive ShowFlag where
  | AmbientOcclusion
  | AntiAliasing
  | AtmosphericFog
  | Bloom
  | CameraImperfections
  | CameraInterpolation
  | ColorGrading
  | DepthOfField
  | Diffuse
  | DirectionalLights
  | DirectLighting
  | DynamicShadows
  | EyeAdaptation
  | Fog
  | GlobalIllumination
  | Grain
  | HLODColoration
  | HMDDistortion
  | LensFlares
  | LevelColoration
  | LightComplexity
  | LightFunctions
  | LightInfluences
  | Lighting
  | LightMapDensity
  | LightRadius
  | LightShafts
  | LODColoration
  | MotionBlur
  | OnScreenDebug
  | Particles
  | PointLights
  | PropertyColoration
  | Refraction
  | SceneColorFringe
  | ScreenSpaceAO
  | ScreenSpaceReflections
  | SkyLighting
  | SpotLights
  | StationaryLightOverlap
  | SubsurfaceScattering
  | Tonemapper
  | VisualizeAdaptiveDOF
  | VisualizeBloom
  | VisualizeBuffer
  | VisualizeDistanceFieldAO
  | VisualizeDistanceFieldGI
  | VisualizeDOF
  | VisualizeHDR
  | VisualizeLightCulling
  | VisualizeLPV
  | VisualizeMeshDistanceFields
  | VisualizeMotionBlur
  | VisualizeOutOfBoundsPixels
  | VisualizeSenses
  | VisualizeShadingModels
  | VisualizeSSR
  | VisualizeSSS
  deriving DecidableEq, Repr

/-- The suppression list of `RemoveShowFlags`, in the order the source sets
the flags to `false`. -/
def removeShowFlagsList : List ShowFlag :=
  [ShowFlag.AmbientOcclusion, ShowFlag.AntiAliasing, ShowFlag.AtmosphericFog,
   ShowFlag.Bloom, ShowFlag.CameraImperfections, ShowFlag.CameraInterpolation,
   ShowFlag.ColorGrading, ShowFlag.DepthOfField, ShowFlag.Diffuse,
   ShowFlag.DirectionalLights, ShowFlag.DirectLighting, ShowFlag.DynamicShadows,
   ShowFlag.EyeAdaptation, ShowFlag.Fog, ShowFlag.GlobalIllumination,
   ShowFlag.Grain, ShowFlag.HLODColoration, ShowFlag.HMDDistortion,
   ShowFlag.LensFlares, ShowFlag.LevelColoration, ShowFlag.LightComplexity,
   ShowFlag.LightFunctions, ShowFlag.LightInfluences, ShowFlag.Lighting,
   ShowFlag.LightMapDensity, ShowFlag.LightRadius, ShowFlag.LightShafts,
   ShowFlag.LODColoration, ShowFlag.MotionBlur, ShowFlag.OnScreenDebug,
   ShowFlag.Particles, ShowFlag.PointLights, ShowFlag.PropertyColoration,
   ShowFlag.Refraction, ShowFlag.SceneColorFringe, ShowFlag.ScreenSpaceAO,
   ShowFlag.ScreenSpaceReflections, ShowFlag.SkyLighting, ShowFlag.SpotLights,
   ShowFlag.StationaryLightOverlap, ShowFlag.SubsurfaceScattering,
   ShowFlag.Tonemapper, ShowFlag.VisualizeAdaptiveDOF, ShowFlag.VisualizeBloom,
   ShowFlag.VisualizeBuffer, ShowFlag.VisualizeDistanceFieldAO,
   ShowFlag.VisualizeDistanceFieldGI, ShowFlag.VisualizeDOF,
   ShowFlag.VisualizeHDR, ShowFlag.VisualizeLightCulling,
   ShowFlag.VisualizeLPV, ShowFlag.VisualizeMeshDistanceFields,
   ShowFlag.VisualizeMotionBlur, ShowFlag.VisualizeOutOfBoundsPixels,
   ShowFlag.VisualizeSenses, ShowFlag.VisualizeShadingModels,
   ShowFlag.VisualizeSSR, ShowFlag.VisualizeSSS]

/-- One `ShowFlags.SetX(b)` call. -/
def setShowFlag (f : ShowFlag) (b : Bool) (g : ShowFlag → Bool) : ShowFlag → Bool :=
  fun x => if x = f then b else g x

/-- `RemoveShowFlags(FEngineShowFlags&)`: switches off every flag of
`removeShowFlagsList`, in source order. -/
def RemoveShowFlags (g : ShowFlag → Bool) : ShowFlag → Bool :=
  removeShowFlagsList.foldl (fun acc f => setShowFlag f false acc) g

/-- Engine default: every show flag enabled. -/
def defaultShowFlags : ShowFlag → Bool := fun _ => true

/-- The two post-processing materials loaded in the constructor. -/
inductive Material where
  | PostProcessDepth
  | PostProcessSemanticSegmentation
  deriving DecidableEq, Repr

/-- IEEE-754 single-precision bit pattern of `1.0f` (the blend weight the
source passes to `AddBlendable`). -/
def floatBitsOne : Nat := 1065353216

/-- IEEE-754 single-precision bit pattern of `90.0f` (the engine default
`FOVAngle` of a `USceneCaptureComponent2D`). -/
def floatBits90 : Nat := 1119092736

/-- The auto-exposure slice of `FPostProcessSettings` that
`SceneCaptureCamera.cpp` reads and writes.  Values are float bit patterns
(or the small enum code for the method), forwarded verbatim. -/
structure FPostProcessSettings where
  bOverride_AutoExposureMethod : Bool
  AutoExposureMethod : Nat
  bOverride_AutoExposureMinBrightness : Bool
  AutoExposureMinBrightness : Nat
  bOverride_AutoExposureMaxBrightness : Bool
  AutoExposureMaxBrightness : Nat
  bOverride_AutoExposureBias : Bool
  AutoExposureBias : Nat
  deriving DecidableEq, Repr

/-- Engine defaults: no override flag set. -/
def defaultFPostProcessSettings : FPostProcessSettings :=
  { bOverride_AutoExposureMethod := false
    AutoExposureMethod := 0
    bOverride_AutoExposureMinBrightness := false
    AutoExposureMinBrightness := 0
    bOverride_AutoExposureMaxBrightness := false
    AutoExposureMaxBrightness := 0
    bOverride_AutoExposureBias := false
    AutoExposureBias := 0 }

/-- `ESceneCaptureSource` values this file uses. -/
inductive ESceneCaptureSource where
  | SCS_SceneColorHDR
  | SCS_FinalColorLDR
  deriving DecidableEq, Repr

/-- The state of the `USceneCaptureComponent2D` subobject that the source
reads or writes: capture geometry, post-process settings, show flags, the
blendable stack and activation. -/
structure CaptureComponent2DState where
  FOVAngle : Nat
  PostProcessSettings : FPostProcessSettings
  ShowFlags : ShowFlag → Bool
  Blendables : List (Material × Nat)
  CaptureSource : ESceneCaptureSource
  bIsActive : Bool

/-- Component state as created by `CreateDefaultSubobject` in the
constructor. -/
def defaultCaptureComponent2D : CaptureComponent2DState :=
  { FOVAngle := floatBits90
    PostProcessSettings := defaultFPostProcessSettings
    ShowFlags := defaultShowFlags
    Blendables := []
    CaptureSource := ESceneCaptureSource.SCS_SceneColorHDR
    bIsActive := true }

/-- Pixel format constants this file uses. -/
inductive EPixelFormat where
  | PF_Unknown
  | PF_B8G8R8A8
  deriving DecidableEq, Repr

/-- The state of the `UTextureRenderTarget2D` subobject. -/
structure RenderTargetState where
  SizeX : Nat
  SizeY : Nat
  Format : EPixelFormat
  bForceLinearGamma : Bool
  TargetGamma : Nat
  deriving DecidableEq, Repr

/-- Render target as created by `CreateDefaultSubobject` (sizes and format
are set later by `InitCustomFormat`). -/
def defaultRenderTarget : RenderTargetState :=
  { SizeX := 0
    SizeY := 0
    Format := EPixelFormat.PF_Unknown
    bForceLinearGamma := false
    TargetGamma := 0 }

/-- `UTextureRenderTarget2D::InitCustomFormat(SizeX, SizeY, Format,
bInForceLinearGamma)`.  The size parameters are `uint32`. -/
def InitCustomFormat (x y : Nat) (fmt : EPixelFormat) (lin : Bool)
    (rt : RenderTargetState) : RenderTargetState :=
  { rt with SizeX := x % 2 ^ 32, SizeY := y % 2 ^ 32, Format := fmt,
            bForceLinearGamma := lin }

/-- `ASceneCaptureCamera` state: the fields of the actor that
`SceneCaptureCamera.cpp` reads or writes.  `Id` is the sensor id kept by the
`ASensor` base class and returned by `GetId()`.  The subobject pointers are
`Option` (they are never null after the constructor, but the null checks in
the source are modelled faithfully). -/
structure CameraState where
  Id : Nat
  SizeX : Nat
  SizeY : Nat
  PostProcessEffect : EPostProcessEffect
  CaptureRenderTarget : Option RenderTargetState
  CaptureComponent2D : Option CaptureComponent2DState

/-- `ASceneCaptureCamera::ASceneCaptureCamera`: SizeX = 720, SizeY = 512,
PostProcessEffect = SceneFinal, subobjects created. -/
def newSceneCaptureCamera : CameraState :=
  { Id := 0
    SizeX := 720
    SizeY := 512
    PostProcessEffect := EPostProcessEffect.SceneFinal
    CaptureRenderTarget := some defaultRenderTarget
    CaptureComponent2D := some defaultCaptureComponent2D }

/-- A failed `check(...)` (Unreal's hard assertion: fails loudly). -/
inductive CheckError where
  | checkFailed
  deriving DecidableEq, Repr

/-- `ASceneCaptureCamera::GetFOVAngle`: `check(CaptureComponent2D != nullptr)`
then return `CaptureComponent2D->FOVAngle`. -/
def GetFOVAngle (s : CameraState) : Except CheckError Nat :=
  match s.CaptureComponent2D with
  | none => Except.error CheckError.checkFailed
  | some c => Except.ok c.FOVAngle

/-- `ASceneCaptureCamera::SetFOVAngle`: `check(CaptureComponent2D != nullptr)`
then assign `CaptureComponent2D->FOVAngle`. -/
def SetFOVAngle (fov : Nat) (s : CameraState) : Except CheckError CameraState :=
  match s.CaptureComponent2D with
  | none => Except.error CheckError.checkFailed
  | some c =>
      Except.ok { s with CaptureComponent2D := some { c with FOVAngle := fov } }

/-- `ASceneCaptureCamera::SetTargetGamma`: `check(CaptureRenderTarget !=
nullptr)` then assign `CaptureRenderTarget->TargetGamma`. -/
def SetTargetGamma (gamma : Nat) (s : CameraState) : Except CheckError CameraState :=
  match s.CaptureRenderTarget with
  | none => Except.error CheckError.checkFailed
  | some rt =>
      Except.ok { s with CaptureRenderTarget := some { rt with TargetGamma := gamma } }

/-- `ASceneCaptureCamera::SetImageSize(uint32, uint32)`: unconditional
assignment, no validation. -/
def SetImageSize (x y : Nat) (s : CameraState) : CameraState :=
  { s with SizeX := x % 2 ^ 32, SizeY := y % 2 ^ 32 }

/-- `ASceneCaptureCamera::SetPostProcessEffect`: store the new effect; the
reference `CaptureComponent2D->PostProcessSettings` is taken unconditionally
(null component = crash = `none`); if the new effect is not `SceneFinal`,
clear the four auto-exposure override flags. -/
def SetPostProcessEffect (e : EPostProcessEffect) (s : CameraState) :
    Option CameraState :=
  let s := { s with PostProcessEffect := e }
  match s.CaptureComponent2D with
  | none => none
  | some c =>
      if e ≠ EPostProcessEffect.SceneFinal then
        some { s with CaptureComponent2D := some { c with PostProcessSettings :=
          { c.PostProcessSettings with
              bOverride_AutoExposureMethod := false
              bOverride_AutoExposureMinBrightness := false
              bOverride_AutoExposureMaxBrightness := false
              bOverride_AutoExposureBias := false } } }
      else some s

/-- `UCameraDescription` as consumed by `ASceneCaptureCamera::Set`.
`ImageSizeX/Y` are `uint32`; `FOVAngle` and the auto-exposure parameters are
float bit patterns. -/
structure UCameraDescription where
  ImageSizeX : Nat
  ImageSizeY : Nat
  FOVAngle : Nat
  PostProcessEffect : EPostProcessEffect
  bOverrideCameraPostProcessParameters : Bool
  AutoExposureMethod : Nat
  AutoExposureMinBrightness : Nat
  AutoExposureMaxBrightness : Nat
  AutoExposureBias : Nat
  deriving DecidableEq, Repr

/-- `ASceneCaptureCamera::Set(const UCameraDescription&)`.  `Super::Set`
concerns base-class bookkeeping outside this file and is the identity on the
modelled fields.  Note the order: the auto-exposure override block runs
before `SetPostProcessEffect`, which clears the override flags again when
the description's effect is not `SceneFinal`. -/
def Set (d : UCameraDescription) (s : CameraState) : Option CameraState :=
  let step1 : Option CameraState :=
    if d.bOverrideCameraPostProcessParameters then
      match s.CaptureComponent2D with
      | none => none
      | some c =>
          some { s with CaptureComponent2D := some { c with PostProcessSettings :=
            { c.PostProcessSettings with
                bOverride_AutoExposureMethod := true
                AutoExposureMethod := d.AutoExposureMethod
                bOverride_AutoExposureMinBrightness := true
                AutoExposureMinBrightness := d.AutoExposureMinBrightness
                bOverride_AutoExposureMaxBrightness := true
                AutoExposureMaxBrightness := d.AutoExposureMaxBrightness
                bOverride_AutoExposureBias := true
                AutoExposureBias := d.AutoExposureBias } } }
    else some s
  match step1 with
  | none => none
  | some s1 =>
      let s2 := SetImageSize d.ImageSizeX d.ImageSizeY s1
      match SetPostProcessEffect d.PostProcessEffect s2 with
      | none => none
      | some s3 =>
          match SetFOVAngle d.FOVAngle s3 with
          | Except.error _ => none
          | Except.ok s4 => some s4

/-- `ASceneCaptureCamera::BeginPlay` (the spec's `onSessionStart`):
initialize the render target from the current configuration, set the
capture source for non-`None` effects, remove the show flags and blend the
variant's material for non-`SceneFinal` effects, reactivate the component. -/
def BeginPlay (s : CameraState) : Option CameraState :=
  let bRemovePostProcessing := s.PostProcessEffect ≠ EPostProcessEffect.SceneFinal
  match s.CaptureRenderTarget, s.CaptureComponent2D with
  | some rt, some c =>
      let rt := InitCustomFormat s.SizeX s.SizeY EPixelFormat.PF_B8G8R8A8
        bRemovePostProcessing rt
      let c := { c with bIsActive := false }
      let c := if s.PostProcessEffect ≠ EPostProcessEffect.None then
          { c with CaptureSource := ESceneCaptureSource.SCS_FinalColorLDR }
        else c
      let c := if bRemovePostProcessing then
          { c with ShowFlags := RemoveShowFlags c.ShowFlags }
        else c
      let c := if s.PostProcessEffect = EPostProcessEffect.Depth then
          { c with Blendables :=
              c.Blendables ++ [(Material.PostProcessDepth, floatBitsOne)] }
        else if s.PostProcessEffect = EPostProcessEffect.SemanticSegmentation then
          { c with Blendables :=
              c.Blendables ++ [(Material.PostProcessSemanticSegmentation, floatBitsOne)] }
        else c
      let c := { c with bIsActive := true }
      some { s with CaptureRenderTarget := some rt, CaptureComponent2D := some c }
  | _, _ => none

/-- `FColor`: one pixel, channel order B,G,R,A. -/
structure FColor where
  B : Nat
  G : Nat
  R : Nat
  A : Nat
  deriving DecidableEq, Repr

/-- The state of the render-target read-back attempted by `ReadPixels`:
`GameThread_GetRenderTargetResource()` may be null, and the resource's
`ReadPixels` may fail; otherwise it yields the pixel sequence. -/
inductive ReadbackResult where
  | missingResource
  | readFailed
  | ok (pixels : List FColor)
  deriving DecidableEq, Repr

/-- `ASceneCaptureCamera::ReadPixels`: `none` when the render-target
resource is missing (logged, returns false) or the resource read fails;
otherwise the pixels. -/
def ReadPixels (rb : ReadbackResult) : Option (List FColor) :=
  match rb with
  | ReadbackResult.missingResource => none
  | ReadbackResult.readFailed => none
  | ReadbackResult.ok px => some px

/-- The header struct built at the top of `Tick` — four 32-bit fields
`{Width, Height, Type, FOV}` (the C++ field `Type` is `Type_` here, `Type`
being reserved in Lean; `FOV` is the float's bit pattern). -/
structure ImageHeader where
  Width : Nat
  Height : Nat
  Type_ : Nat
  FOVBits : Nat
  deriving DecidableEq, Repr

/-- Little-endian byte serialization of one 32-bit slot. -/
def toLE32 (n : Nat) : List Nat :=
  [n % 256, n / 256 % 256, n / 65536 % 256, n / 16777216 % 256]

/-- Little-endian value of one 4-byte slot. -/
def fromLE32 : List Nat → Nat
  | [b0, b1, b2, b3] => b0 + 256 * b1 + 65536 * b2 + 16777216 * b3
  | _ => 0

/-- The 16-byte wire image of the header struct: four little-endian 32-bit
slots in declaration order (x86 layout of the packed struct, as asserted by
the source's `static_assert(sizeof(ImageHeader) == 4u * sizeof(uint32))`). -/
def encodeHeader (h : ImageHeader) : List Nat :=
  toLE32 h.Width ++ toLE32 h.Height ++ toLE32 h.Type_ ++ toLE32 h.FOVBits

/-- Decode a 16-byte buffer back into the four header fields (fails on any
other length). -/
def decodeHeader (bs : List Nat) : Option ImageHeader :=
  match bs with
  | [w0, w1, w2, w3, h0, h1, h2, h3, t0, t1, t2, t3, f0, f1, f2, f3] =>
      some { Width := fromLE32 [w0, w1, w2, w3]
             Height := fromLE32 [h0, h1, h2, h3]
             Type_ := fromLE32 [t0, t1, t2, t3]
             FOVBits := fromLE32 [f0, f1, f2, f3] }
  | _ => none

/-- Field `i` (0-based) of an encoded header. -/
def headerField (bs : List Nat) (i : Nat) : Nat :=
  fromLE32 ((bs.drop (4 * i)).take 4)

/-- `FSensorDataView` as handed to `WriteSensorData`: sensor id, header
bytes, pixel buffer. -/
structure SensorDataView where
  Id : Nat
  Header : List Nat
  Pixels : List FColor
  deriving DecidableEq, Repr

/-- The spec's per-tick outcome. -/
inductive TickOutcome where
  | Skipped
  | Published
  deriving DecidableEq, Repr

/-- `ASceneCaptureCamera::Tick` (the spec's `onTick`): build the header from
the current state (dereferencing `CaptureComponent2D` for the FOV), attempt
the read-back, and on success hand exactly one `FSensorDataView` to
`WriteSensorData`; on failure do nothing further.  The returned list is the
sequence of `WriteSensorData` invocations of this tick. -/
def Tick (s : CameraState) (rb : ReadbackResult) :
    Option (TickOutcome × List SensorDataView) :=
  match s.CaptureComponent2D, s.CaptureRenderTarget with
  | some c, some _ =>
      let header : ImageHeader :=
        { Width := s.SizeX
          Height := s.SizeY
          Type_ := PostProcessEffectToUInt s.PostProcessEffect
          FOVBits := c.FOVAngle }
      match ReadPixels rb with
      | none => some (TickOutcome.Skipped, [])
      | some px =>
          some (TickOutcome.Published,
            [{ Id := s.Id, Header := encodeHeader header, Pixels := px }])
  | _, _ => none

/-! ### Derived predicates and concrete states used by witnesses -/

/-- All four auto-exposure override flags of the camera's capture component
are disabled. -/
def autoExposureOverridesCleared (s : CameraState) : Prop :=
  ∀ c, s.CaptureComponent2D = some c →
    c.PostProcessSettings.bOverride_AutoExposureMethod = false ∧
    c.PostProcessSettings.bOverride_AutoExposureMinBrightness = false ∧
    c.PostProcessSettings.bOverride_AutoExposureMaxBrightness = false ∧
    c.PostProcessSettings.bOverride_AutoExposureBias = false

/-- The example description of the spec's scenario: 720×512, 90° FOV,
SceneFinal, no auto-exposure override. -/
def descExample : UCameraDescription :=
  { ImageSizeX := 720
    ImageSizeY := 512
    FOVAngle := floatBits90
    PostProcessEffect := EPostProcessEffect.SceneFinal
    bOverrideCameraPostProcessParameters := false
    AutoExposureMethod := 0
    AutoExposureMinBrightness := 0
    AutoExposureMaxBrightness := 0
    AutoExposureBias := 0 }

/-- The camera right after `Set descExample`. -/
def s1Example : CameraState :=
  (Set descExample newSceneCaptureCamera).getD newSceneCaptureCamera

/-- The camera after `Set descExample` then `BeginPlay`. -/
def s2Example : CameraState := (BeginPlay s1Example).getD newSceneCaptureCamera

/-- The data view published by a successful tick of `s2Example`. -/
def vExample : SensorDataView :=
  (((Tick s2Example (ReadbackResult.ok [])).getD (TickOutcome.Skipped, [])).2).headD
    { Id := 0, Header := [], Pixels := [] }

/-- A description that requests the auto-exposure override together with the
SceneFinal variant. -/
def descOverrideSceneFinal : UCameraDescription :=
  { ImageSizeX := 720
    ImageSizeY := 512
    FOVAngle := floatBits90
    PostProcessEffect := EPostProcessEffect.SceneFinal
    bOverrideCameraPostProcessParameters := true
    AutoExposureMethod := 1
    AutoExposureMinBrightness := 2
    AutoExposureMaxBrightness := 3
    AutoExposureBias := 4 }

/-- The camera with the auto-exposure override applied
(`Set descOverrideSceneFinal` on the fresh camera). -/
def camOverrides : CameraState :=
  (Set descOverrideSceneFinal newSceneCaptureCamera).getD newSceneCaptureCamera

/-- `camOverrides` after switching the variant away from SceneFinal. -/
def camSwitchedAway : CameraState :=
  (SetPostProcessEffect EPostProcessEffect.Depth camOverrides).getD camOverrides

/-- `camSwitchedAway` after switching the variant back to SceneFinal. -/
def camSwitchedBack : CameraState :=
  (SetPostProcessEffect EPostProcessEffect.SceneFinal camSwitchedAway).getD
    camSwitchedAway

/-- The fresh camera reconfigured to the `None` variant. -/
def camNoneEffect : CameraState :=
  (SetPostProcessEffect EPostProcessEffect.None newSceneCaptureCamera).getD
    newSceneCaptureCamera

/-- The fresh camera with the `Depth` variant. -/
def camDepthEffect : CameraState :=
  (SetPostProcessEffect EPostProcessEffect.Depth newSceneCaptureCamera).getD
    newSceneCaptureCamera

/-- The fresh camera with the `SemanticSegmentation` variant. -/
def camSegmentationEffect : CameraState :=
  (SetPostProcessEffect EPostProcessEffect.SemanticSegmentation
    newSceneCaptureCamera).getD newSceneCaptureCamera

/-- An invalid description: zero resolution and FOV 0.0 (bit pattern 0). -/
def descInvalid : UCameraDescription :=
  { ImageSizeX := 0
    ImageSizeY := 0
    FOVAngle := 0
    PostProcessEffect := EPostProcessEffect.SceneFinal
    bOverrideCameraPostProcessParameters := false
    AutoExposureMethod := 0
    AutoExposureMinBrightness := 0
    AutoExposureMaxBrightness := 0
    AutoExposureBias := 0 }

/-- A camera state whose capture-component pointer is null (never produced
by the constructor; exercises the `check` failure branch). -/
def camNullComponent : CameraState :=
  { newSceneCaptureCamera with CaptureComponent2D := none }

/-! ### Helper lemmas shared by the claim theorems -/

/-- One little-endian 32-bit slot decodes back to the value modulo `2^32`. -/
theorem fromLE32_toLE32 (n : Nat) : fromLE32 (toLE32 n) = n % 2 ^ 32 := by
  simp only [toLE32, fromLE32]
  omega

/-- Successful read-back makes `Tick` publish exactly one data view whose
header is the encoded image header. -/
theorem Tick_ok_eq (s : CameraState) (c : CaptureComponent2DState)
    (rt : RenderTargetState) (px : List FColor)
    (hc : s.CaptureComponent2D = some c)
    (hrt : s.CaptureRenderTarget = some rt) :
    Tick s (ReadbackResult.ok px) = some (TickOutcome.Published,
      [{ Id := s.Id
         Header := encodeHeader
           { Width := s.SizeX
             Height := s.SizeY
             Type_ := PostProcessEffectToUInt s.PostProcessEffect
             FOVBits := c.FOVAngle }
         Pixels := px }]) := by
  simp [Tick, hc, hrt, ReadPixels]

/-- `Set` stores the description's fields: sizes (as `uint32`), effect, FOV. -/
theorem Set_some_fields (d : UCameraDescription) (s s' : CameraState)
    (h : Set d s = some s') :
    s'.SizeX = d.ImageSizeX % 2 ^ 32 ∧ s'.SizeY = d.ImageSizeY % 2 ^ 32 ∧
    s'.PostProcessEffect = d.PostProcessEffect ∧
    s'.CaptureRenderTarget = s.CaptureRenderTarget ∧
    GetFOVAngle s' = Except.ok d.FOVAngle := by
  cases hc : s.CaptureComponent2D with
  | none =>
      by_cases hov : d.bOverrideCameraPostProcessParameters <;>
        simp [Set, SetImageSize, SetPostProcessEffect, SetFOVAngle, hc, hov] at h
  | some c =>
      by_cases hov : d.bOverrideCameraPostProcessParameters <;>
        by_cases he : d.PostProcessEffect = EPostProcessEffect.SceneFinal <;>
        · simp [Set, SetImageSize, SetPostProcessEffect, SetFOVAngle, hc, hov, he] at h
          subst h
          simp [GetFOVAngle, he]

/-- `BeginPlay` keeps the configured sizes, effect and FOV, and keeps the
subobjects allocated. -/
theorem BeginPlay_some_fields (s s' : CameraState) (h : BeginPlay s = some s') :
    s'.SizeX = s.SizeX ∧ s'.SizeY = s.SizeY ∧
    s'.PostProcessEffect = s.PostProcessEffect ∧
    GetFOVAngle s' = GetFOVAngle s ∧
    (∃ rt', s'.CaptureRenderTarget = some rt') ∧
    (∃ c', s'.CaptureComponent2D = some c') := by
  cases hrt : s.CaptureRenderTarget with
  | none => simp [BeginPlay, hrt] at h
  | some rt =>
      cases hc : s.CaptureComponent2D with
      | none => simp [BeginPlay, hrt, hc] at h
      | some c =>
          cases hE : s.PostProcessEffect <;>
          · simp only [BeginPlay, hrt, hc, hE, ne_eq, reduceCtorEq,
              not_false_eq_true, if_true, if_false, ite_true, ite_false,
              not_true_eq_false, reduceIte, Option.some.injEq] at h
            subst h
            refine ⟨rfl, rfl, ?_, ?_, ⟨_, rfl⟩, ⟨_, rfl⟩⟩ <;>
              simp [GetFOVAngle, hc, hE]

/-! ### Claim theorems -/

/-- Claim C1: on every tick whose render-target read-back fails (missing
render-target resource or failed pixel read), `Tick` yields the `Skipped`
outcome, invokes `WriteSensorData` zero times, and propagates no error. -/
theorem tick_skipped_when_readback_fails (s : CameraState)
    (c : CaptureComponent2DState) (rt : RenderTargetState) (rb : ReadbackResult)
    (hc : s.CaptureComponent2D = some c)
    (hrt : s.CaptureRenderTarget = some rt)
    (hfail : ReadPixels rb = none) :
    Tick s rb = some (TickOutcome.Skipped, []) := by
  simp [Tick, hc, hrt, hfail]

/-- Witness for C1: the freshly constructed camera with a missing
render-target resource skips the tick and publishes nothing. -/
theorem tick_skipped_when_readback_fails_witness :
    Tick newSceneCaptureCamera ReadbackResult.missingResource =
      some (TickOutcome.Skipped, []) :=
  tick_skipped_when_readback_fails newSceneCaptureCamera
    defaultCaptureComponent2D defaultRenderTarget ReadbackResult.missingResource
    rfl rfl rfl

/-- Field 0 of an encoded header is the width (reduced to 32 bits). -/
theorem headerField_encodeHeader_zero (h : ImageHeader) :
    headerField (encodeHeader h) 0 = h.Width % 2 ^ 32 := by
  have e : headerField (encodeHeader h) 0 = fromLE32 (toLE32 h.Width) := rfl
  rw [e, fromLE32_toLE32]

/-- Field 1 of an encoded header is the height (reduced to 32 bits). -/
theorem headerField_encodeHeader_one (h : ImageHeader) :
    headerField (encodeHeader h) 1 = h.Height % 2 ^ 32 := by
  have e : headerField (encodeHeader h) 1 = fromLE32 (toLE32 h.Height) := rfl
  rw [e, fromLE32_toLE32]

/-- Claim C3: on every tick that publishes, the published frame header is
exactly 16 bytes — four 32-bit little-endian slots holding, in this order,
the width, the height, the post-process variant code, and the FOV float
bit-reinterpreted into a 32-bit slot. -/
theorem tick_header_sixteen_bytes (s : CameraState)
    (c : CaptureComponent2DState) (rt : RenderTargetState) (px : List FColor)
    (hc : s.CaptureComponent2D = some c)
    (hrt : s.CaptureRenderTarget = some rt) :
    Tick s (ReadbackResult.ok px) = some (TickOutcome.Published,
      [{ Id := s.Id
         Header := encodeHeader
           { Width := s.SizeX
             Height := s.SizeY
             Type_ := PostProcessEffectToUInt s.PostProcessEffect
             FOVBits := c.FOVAngle }
         Pixels := px }]) ∧
    (encodeHeader
      { Width := s.SizeX
        Height := s.SizeY
        Type_ := PostProcessEffectToUInt s.PostProcessEffect
        FOVBits := c.FOVAngle }).length = 16 ∧
    encodeHeader
      { Width := s.SizeX
        Height := s.SizeY
        Type_ := PostProcessEffectToUInt s.PostProcessEffect
        FOVBits := c.FOVAngle } =
      toLE32 s.SizeX ++ toLE32 s.SizeY ++
        toLE32 (PostProcessEffectToUInt s.PostProcessEffect) ++ toLE32 c.FOVAngle :=
  ⟨Tick_ok_eq s c rt px hc hrt, by simp [encodeHeader, toLE32], rfl⟩

/-- Witness for C3: the freshly constructed camera publishes a 16-byte header
of the four 32-bit slots on a successful tick. -/
theorem tick_header_sixteen_bytes_witness :
    Tick newSceneCaptureCamera (ReadbackResult.ok []) = some (TickOutcome.Published,
      [{ Id := newSceneCaptureCamera.Id
         Header := encodeHeader
           { Width := newSceneCaptureCamera.SizeX
             Height := newSceneCaptureCamera.SizeY
             Type_ := PostProcessEffectToUInt newSceneCaptureCamera.PostProcessEffect
             FOVBits := defaultCaptureComponent2D.FOVAngle }
         Pixels := [] }]) ∧
    (encodeHeader
      { Width := newSceneCaptureCamera.SizeX
        Height := newSceneCaptureCamera.SizeY
        Type_ := PostProcessEffectToUInt newSceneCaptureCamera.PostProcessEffect
        FOVBits := defaultCaptureComponent2D.FOVAngle }).length = 16 ∧
    encodeHeader
      { Width := newSceneCaptureCamera.SizeX
        Height := newSceneCaptureCamera.SizeY
        Type_ := PostProcessEffectToUInt newSceneCaptureCamera.PostProcessEffect
        FOVBits := defaultCaptureComponent2D.FOVAngle } =
      toLE32 newSceneCaptureCamera.SizeX ++ toLE32 newSceneCaptureCamera.SizeY ++
        toLE32 (PostProcessEffectToUInt newSceneCaptureCamera.PostProcessEffect) ++
        toLE32 defaultCaptureComponent2D.FOVAngle :=
  tick_header_sixteen_bytes newSceneCaptureCamera defaultCaptureComponent2D
    defaultRenderTarget [] rfl rfl

/-- Claim C8: encoding a frame header to its 16-byte wire representation and
decoding it back yields identical field values, including exact bit-pattern
preservation of the FOV float through the 32-bit reinterpretation. -/
theorem header_encode_decode_roundtrip (h : ImageHeader)
    (hw : h.Width < 2 ^ 32) (hh : h.Height < 2 ^ 32)
    (ht : h.Type_ < 2 ^ 32) (hf : h.FOVBits < 2 ^ 32) :
    decodeHeader (encodeHeader h) = some h := by
  obtain ⟨w, hgt, t, f⟩ := h
  dsimp only at hw hh ht hf
  simp only [encodeHeader, toLE32, List.cons_append, List.nil_append,
    decodeHeader, fromLE32, Option.some.injEq, ImageHeader.mk.injEq]
  refine ⟨?_, ?_, ?_, ?_⟩ <;> omega

/-- Witness for C8: the default configuration's header (720×512, SceneFinal,
90° FOV bit pattern) survives the byte round-trip unchanged. -/
theorem header_encode_decode_roundtrip_witness :
    decodeHeader (encodeHeader
      { Width := 720, Height := 512, Type_ := 0, FOVBits := floatBits90 }) =
      some { Width := 720, Height := 512, Type_ := 0, FOVBits := floatBits90 } :=
  header_encode_decode_roundtrip
    { Width := 720, Height := 512, Type_ := 0, FOVBits := floatBits90 }
    (by decide) (by decide) (by decide) (by decide)

/-- Claim C2: applying a valid configuration (positive 32-bit width and
height), starting the session, and completing one successful tick publishes
a header whose first field is the configured width and whose second field is
the configured height. -/
theorem published_header_matches_configured_size (d : UCameraDescription)
    (s s1 s2 : CameraState) (px : List FColor) (o : TickOutcome)
    (v : SensorDataView)
    (hw0 : 0 < d.ImageSizeX) (hw32 : d.ImageSizeX < 2 ^ 32)
    (hh0 : 0 < d.ImageSizeY) (hh32 : d.ImageSizeY < 2 ^ 32)
    (h1 : Set d s = some s1) (h2 : BeginPlay s1 = some s2)
    (h3 : Tick s2 (ReadbackResult.ok px) = some (o, [v])) :
    headerField v.Header 0 = d.ImageSizeX ∧
    headerField v.Header 1 = d.ImageSizeY := by
  obtain ⟨hx1, hy1, -, -, -⟩ := Set_some_fields d s s1 h1
  obtain ⟨hx2, hy2, -, -, ⟨rt2, hrt2⟩, ⟨c2, hc2⟩⟩ := BeginPlay_some_fields s1 s2 h2
  rw [Tick_ok_eq s2 c2 rt2 px hc2 hrt2] at h3
  injection h3 with h4
  have hL := congrArg Prod.snd h4
  dsimp only at hL
  injection hL with hv hnil
  subst hv
  dsimp only
  rw [headerField_encodeHeader_zero, headerField_encodeHeader_one]
  dsimp only
  rw [hx2, hy2, hx1, hy1]
  omega

/-- Witness for C2: the spec's 720×512 scenario publishes 720 and 512 as the
first two header fields. -/
theorem published_header_matches_configured_size_witness :
    headerField vExample.Header 0 = 720 ∧ headerField vExample.Header 1 = 512 :=
  published_header_matches_configured_size descExample newSceneCaptureCamera
    s1Example s2Example [] TickOutcome.Published vExample
    (by decide) (by decide) (by decide) (by decide) rfl rfl rfl

/-- `RemoveShowFlags` switches ambient occlusion off, whatever the incoming
flag valuation: the suppression it applies is never empty. -/
theorem RemoveShowFlags_suppresses_AmbientOcclusion (g : ShowFlag → Bool) :
    RemoveShowFlags g ShowFlag.AmbientOcclusion = false := by
  simp [RemoveShowFlags, removeShowFlagsList, setShowFlag]

/-- Claim C5: the Depth variant and the SemanticSegmentation variant derive
the identical feature suppression at session start, and each blends exactly
its own visualization material — the depth material for Depth, the
segmentation material for SemanticSegmentation — at weight 1.0 (float bits
of `1.0f`). -/
theorem depth_and_segmentation_directives (sD sS : CameraState)
    (c : CaptureComponent2DState) (rtD rtS : RenderTargetState)
    (hcD : sD.CaptureComponent2D = some c)
    (hcS : sS.CaptureComponent2D = some c)
    (hrD : sD.CaptureRenderTarget = some rtD)
    (hrS : sS.CaptureRenderTarget = some rtS)
    (heD : sD.PostProcessEffect = EPostProcessEffect.Depth)
    (heS : sS.PostProcessEffect = EPostProcessEffect.SemanticSegmentation) :
    ∃ tD cD tS cS,
      BeginPlay sD = some tD ∧ tD.CaptureComponent2D = some cD ∧
      BeginPlay sS = some tS ∧ tS.CaptureComponent2D = some cS ∧
      cD.ShowFlags = cS.ShowFlags ∧
      cD.Blendables = c.Blendables ++ [(Material.PostProcessDepth, floatBitsOne)] ∧
      cS.Blendables =
        c.Blendables ++ [(Material.PostProcessSemanticSegmentation, floatBitsOne)] := by
  simp only [BeginPlay, hcD, hcS, hrD, hrS, heD, heS, ne_eq, reduceCtorEq,
    not_false_eq_true, if_true, if_false, ite_true, ite_false, reduceIte]
  exact ⟨_, _, _, _, rfl, rfl, rfl, rfl, rfl, rfl, rfl⟩

/-- Witness for C5: the fresh camera reconfigured to Depth and to
SemanticSegmentation. -/
theorem depth_and_segmentation_directives_witness :
    ∃ tD cD tS cS,
      BeginPlay camDepthEffect = some tD ∧ tD.CaptureComponent2D = some cD ∧
      BeginPlay camSegmentationEffect = some tS ∧ tS.CaptureComponent2D = some cS ∧
      cD.ShowFlags = cS.ShowFlags ∧
      cD.Blendables = defaultCaptureComponent2D.Blendables ++
        [(Material.PostProcessDepth, floatBitsOne)] ∧
      cS.Blendables = defaultCaptureComponent2D.Blendables ++
        [(Material.PostProcessSemanticSegmentation, floatBitsOne)] :=
  depth_and_segmentation_directives camDepthEffect camSegmentationEffect
    defaultCaptureComponent2D defaultRenderTarget defaultRenderTarget
    rfl rfl rfl rfl rfl rfl

/-- Claim C6: from any state, switching the post-process variant away from
SceneFinal clears all four auto-exposure override flags, and switching back
to SceneFinal afterwards does not re-enable any of them. -/
theorem switching_variant_clears_auto_exposure (s1 s2 s3 : CameraState)
    (e : EPostProcessEffect) (he : e ≠ EPostProcessEffect.SceneFinal)
    (h12 : SetPostProcessEffect e s1 = some s2)
    (h23 : SetPostProcessEffect EPostProcessEffect.SceneFinal s2 = some s3) :
    autoExposureOverridesCleared s2 ∧ autoExposureOverridesCleared s3 := by
  cases hc1 : s1.CaptureComponent2D with
  | none => simp [SetPostProcessEffect, hc1] at h12
  | some c1 =>
      simp [SetPostProcessEffect, hc1, he] at h12
      subst h12
      simp [SetPostProcessEffect] at h23
      subst h23
      constructor <;>
      · intro c hc
        injection hc with hc'
        subst hc'
        exact ⟨rfl, rfl, rfl, rfl⟩

/-- Witness for C6: apply the auto-exposure override, switch to Depth, then
back to SceneFinal — the flags stay cleared. -/
theorem switching_variant_clears_auto_exposure_witness :
    autoExposureOverridesCleared camSwitchedAway ∧
    autoExposureOverridesCleared camSwitchedBack :=
  switching_variant_clears_auto_exposure camOverrides camSwitchedAway
    camSwitchedBack EPostProcessEffect.Depth (by decide) rfl rfl

/-- Counterexample to C4: with the `None` variant the suppression applied at
session start is NOT empty — `BeginPlay` runs `RemoveShowFlags` for every
variant other than SceneFinal, so e.g. ambient occlusion ends up switched
off. -/
theorem beginPlay_none_suppresses_flags :
    (BeginPlay camNoneEffect).map (fun t => t.CaptureComponent2D.map
      (fun c => c.ShowFlags ShowFlag.AmbientOcclusion)) = some (some false) := by
  decide

/-- Claim C4 (amended): the feature suppression applied at session start is
empty exactly for the SceneFinal variant; for None — just as for Depth and
SemanticSegmentation — the full (non-empty) `RemoveShowFlags` list is
applied, e.g. ambient occlusion is switched off. -/
theorem beginPlay_suppression_iff_not_sceneFinal (s : CameraState)
    (c : CaptureComponent2DState) (rt : RenderTargetState)
    (hc : s.CaptureComponent2D = some c)
    (hrt : s.CaptureRenderTarget = some rt) :
    ∃ t c', BeginPlay s = some t ∧ t.CaptureComponent2D = some c' ∧
      c'.ShowFlags = (if s.PostProcessEffect = EPostProcessEffect.SceneFinal
        then c.ShowFlags else RemoveShowFlags c.ShowFlags) ∧
      RemoveShowFlags c.ShowFlags ShowFlag.AmbientOcclusion = false := by
  cases hE : s.PostProcessEffect <;>
  · simp only [BeginPlay, hc, hrt, hE, ne_eq, reduceCtorEq, not_false_eq_true,
      not_true_eq_false, if_true, if_false, ite_true, ite_false, reduceIte]
    exact ⟨_, _, rfl, rfl, rfl, RemoveShowFlags_suppresses_AmbientOcclusion c.ShowFlags⟩

/-- Witness for C4 (amended): the fresh SceneFinal camera keeps its show
flags untouched at session start, while the suppression list itself is
non-empty. -/
theorem beginPlay_suppression_iff_not_sceneFinal_witness :
    ∃ t c', BeginPlay newSceneCaptureCamera = some t ∧
      t.CaptureComponent2D = some c' ∧
      c'.ShowFlags =
        (if newSceneCaptureCamera.PostProcessEffect = EPostProcessEffect.SceneFinal
         then defaultCaptureComponent2D.ShowFlags
         else RemoveShowFlags defaultCaptureComponent2D.ShowFlags) ∧
      RemoveShowFlags defaultCaptureComponent2D.ShowFlags
        ShowFlag.AmbientOcclusion = false :=
  beginPlay_suppression_iff_not_sceneFinal newSceneCaptureCamera
    defaultCaptureComponent2D defaultRenderTarget rfl rfl

/-- Counterexample to C7: the description with zero resolution and FOV 0.0 is
not rejected — `Set` succeeds (no error value exists on this path) and
overwrites the previously valid 720×512 configuration with width 0. -/
theorem set_accepts_invalid_config :
    (Set descInvalid newSceneCaptureCamera).map CameraState.SizeX = some 0 ∧
    newSceneCaptureCamera.SizeX = 720 :=
  ⟨rfl, rfl⟩

/-- Claim C7 (amended): `Set` performs no validation at all: every
description — non-positive resolution and out-of-range FOV included — is
applied unconditionally, overwriting the prior configuration; there is no
rejection path. -/
theorem set_applies_any_description (d : UCameraDescription) (s : CameraState)
    (c : CaptureComponent2DState) (hc : s.CaptureComponent2D = some c) :
    ∃ s', Set d s = some s' ∧ s'.SizeX = d.ImageSizeX % 2 ^ 32 ∧
      s'.SizeY = d.ImageSizeY % 2 ^ 32 ∧
      s'.PostProcessEffect = d.PostProcessEffect ∧
      GetFOVAngle s' = Except.ok d.FOVAngle := by
  by_cases hov : d.bOverrideCameraPostProcessParameters <;>
    by_cases he : d.PostProcessEffect = EPostProcessEffect.SceneFinal <;>
    · simp [Set, SetImageSize, SetPostProcessEffect, SetFOVAngle, GetFOVAngle,
        hc, hov, he]

/-- Witness for C7 (amended): the invalid zero description is applied to the
fresh camera without any rejection. -/
theorem set_applies_any_description_witness :
    ∃ s', Set descInvalid newSceneCaptureCamera = some s' ∧
      s'.SizeX = descInvalid.ImageSizeX % 2 ^ 32 ∧
      s'.SizeY = descInvalid.ImageSizeY % 2 ^ 32 ∧
      s'.PostProcessEffect = descInvalid.PostProcessEffect ∧
      GetFOVAngle s' = Except.ok descInvalid.FOVAngle :=
  set_applies_any_description descInvalid newSceneCaptureCamera
    defaultCaptureComponent2D rfl

/-- Counterexample to C9: before `BeginPlay` (the session start) has ever
run, `GetFOVAngle` and `SetFOVAngle` on the freshly constructed camera
succeed silently — the `check` passes because the constructor already
created the capture component — instead of failing a precondition check. -/
theorem fov_calls_before_session_start_succeed :
    GetFOVAngle newSceneCaptureCamera = Except.ok floatBits90 ∧
    SetFOVAngle floatBitsOne newSceneCaptureCamera = Except.ok
      { newSceneCaptureCamera with
          CaptureComponent2D :=
            some { defaultCaptureComponent2D with FOVAngle := floatBitsOne } } :=
  ⟨rfl, rfl⟩

/-- Claim C9 (amended): the hard `check` in `GetFOVAngle`/`SetFOVAngle`
guards the capture-component pointer, not session start: on a null component
both fail loudly with the check error, but after construction the component
exists, so a call made before `BeginPlay` succeeds. -/
theorem fov_check_guards_component (s : CameraState) (v : Nat)
    (hnull : s.CaptureComponent2D = none) :
    GetFOVAngle s = Except.error CheckError.checkFailed ∧
    SetFOVAngle v s = Except.error CheckError.checkFailed ∧
    GetFOVAngle newSceneCaptureCamera = Except.ok floatBits90 :=
  ⟨by simp [GetFOVAngle, hnull], by simp [SetFOVAngle, hnull], rfl⟩

/-- Witness for C9 (amended): the null-component state fails both calls
loudly; the constructed camera answers 90°. -/
theorem fov_check_guards_component_witness :
    GetFOVAngle camNullComponent = Except.error CheckError.checkFailed ∧
    SetFOVAngle 0 camNullComponent = Except.error CheckError.checkFailed ∧
    GetFOVAngle newSceneCaptureCamera = Except.ok floatBits90 :=
  fov_check_guards_component camNullComponent 0 rfl

/-- Counterexample to C10: `Set` with a SceneFinal description whose
override boolean is clear leaves previously enabled override flags enabled —
the flags are not determined by the description alone, so the claimed "if
and only if" fails. -/
theorem set_override_flags_not_iff :
    descExample.bOverrideCameraPostProcessParameters = false ∧
    descExample.PostProcessEffect = EPostProcessEffect.SceneFinal ∧
    ((Set descOverrideSceneFinal newSceneCaptureCamera).bind
        (fun s => Set descExample s)).map
      (fun s => s.CaptureComponent2D.map
        (fun c => c.PostProcessSettings.bOverride_AutoExposureMethod)) =
      some (some true) :=
  ⟨rfl, rfl, rfl⟩

/-- Claim C10 (amended): after `Set`, each auto-exposure override flag is
enabled iff the description's variant is SceneFinal and either the
description's override boolean is set or that flag was already enabled
before the call; in particular a description with the override boolean set
but a non-SceneFinal variant leaves all four flags disabled, because the
variant change (which clears the flags) runs after the override block. -/
theorem set_override_flags_formula (d : UCameraDescription) (s : CameraState)
    (c : CaptureComponent2DState) (hc : s.CaptureComponent2D = some c) :
    ∃ s' c', Set d s = some s' ∧ s'.CaptureComponent2D = some c' ∧
      c'.PostProcessSettings.bOverride_AutoExposureMethod =
        (if d.PostProcessEffect = EPostProcessEffect.SceneFinal
         then d.bOverrideCameraPostProcessParameters
                || c.PostProcessSettings.bOverride_AutoExposureMethod
         else false) ∧
      c'.PostProcessSettings.bOverride_AutoExposureMinBrightness =
        (if d.PostProcessEffect = EPostProcessEffect.SceneFinal
         then d.bOverrideCameraPostProcessParameters
                || c.PostProcessSettings.bOverride_AutoExposureMinBrightness
         else false) ∧
      c'.PostProcessSettings.bOverride_AutoExposureMaxBrightness =
        (if d.PostProcessEffect = EPostProcessEffect.SceneFinal
         then d.bOverrideCameraPostProcessParameters
                || c.PostProcessSettings.bOverride_AutoExposureMaxBrightness
         else false) ∧
      c'.PostProcessSettings.bOverride_AutoExposureBias =
        (if d.PostProcessEffect = EPostProcessEffect.SceneFinal
         then d.bOverrideCameraPostProcessParameters
                || c.PostProcessSettings.bOverride_AutoExposureBias
         else false) := by
  by_cases hov : d.bOverrideCameraPostProcessParameters <;>
    by_cases he : d.PostProcessEffect = EPostProcessEffect.SceneFinal <;>
    · simp [Set, SetImageSize, SetPostProcessEffect, SetFOVAngle, hc, hov, he]

/-- Witness for C10 (amended): a SceneFinal description with the override
boolean set enables all four flags on the fresh camera. -/
theorem set_override_flags_formula_witness :
    ∃ s' c', Set descOverrideSceneFinal newSceneCaptureCamera = some s' ∧
      s'.CaptureComponent2D = some c' ∧
      c'.PostProcessSettings.bOverride_AutoExposureMethod =
        (if descOverrideSceneFinal.PostProcessEffect = EPostProcessEffect.SceneFinal
         then descOverrideSceneFinal.bOverrideCameraPostProcessParameters
                || defaultCaptureComponent2D.PostProcessSettings.bOverride_AutoExposureMethod
         else false) ∧
      c'.PostProcessSettings.bOverride_AutoExposureMinBrightness =
        (if descOverrideSceneFinal.PostProcessEffect = EPostProcessEffect.SceneFinal
         then descOverrideSceneFinal.bOverrideCameraPostProcessParameters
                || defaultCaptureComponent2D.PostProcessSettings.bOverride_AutoExposureMinBrightness
         else false) ∧
      c'.PostProcessSettings.bOverride_AutoExposureMaxBrightness =
        (if descOverrideSceneFinal.PostProcessEffect = EPostProcessEffect.SceneFinal
         then descOverrideSceneFinal.bOverrideCameraPostProcessParameters
                || defaultCaptureComponent2D.PostProcessSettings.bOverride_AutoExposureMaxBrightness
         else false) ∧
      c'.PostProcessSettings.bOverride_AutoExposureBias =
        (if descOverrideSceneFinal.PostProcessEffect = EPostProcessEffect.SceneFinal
         then descOverrideSceneFinal.bOverrideCameraPostProcessParameters
                || defaultCaptureComponent2D.PostProcessSettings.bOverride_AutoExposureBias
         else false) :=
  set_override_flags_formula descOverrideSceneFinal newSceneCaptureCamera
    defaultCaptureComponent2D rfl

end Carla
